import Mathlib

/-!
Shallow embedding of `src/config/input.rs` (the `Input` entity of the aichat
repository): reference classification, document loading, media dedup,
projection views, and the controlled mutations, together with proofs of the
spec's claims about them.

External collaborators (filesystem, shell, network fetch, hashing, base64,
globbing, configuration context, session/role message composition) are
modelled as fields of an explicit `Env` record, mirroring §6 of the spec;
all code of `input.rs` itself is translated directly.
-/

namespace AichatInput

/-- Fixed image-extension set, from `IMAGE_EXTS` in `input.rs`. -/
def IMAGE_EXTS : List String := ["png", "jpeg", "jpg", "webp", "gif"]

/-- Summary visual-width budget, from `SUMMARY_MAX_WIDTH` in `input.rs`. -/
def SUMMARY_MAX_WIDTH : Nat := 80

/-- Modelled from the spec: the marker constant `MEDIA_URL_EXTENSION` that the
remote-fetch collaborator returns as the content kind when the fetched content
is media; its concrete value lives outside this module and no claim depends
on it. -/
def MEDIA_URL_EXTENSION : String := "__media_url__"

/-- The only two fields of the external `LastMessage` record that
`Input::from_files` reads: `input.last_reply` and `output`. -/
structure LastMessage where
  input_last_reply : Option String
  output : String
deriving DecidableEq

/-- Pending tool-call aggregate; its internal merge contract is external
(`MessageContentToolCalls` lives in the client module), so it is kept as a
plain record and merged through an `Env` function. -/
structure MessageContentToolCalls where
  tool_results : List String
  output : String
deriving DecidableEq

/-- Protocol messages are produced and consumed only by external
session/role collaborators; they are modelled opaquely as strings. -/
abbrev Message := String

/-- The central entity of `input.rs`, with the `config` handle dropped
(configuration context is passed explicitly as `Env`). Field names follow the
Rust struct. -/
structure Input where
  text : String
  raw : String × List String
  patched_text : Option String
  last_reply : Option String
  continue_output : Option String
  regenerate : Bool
  medias : List String
  data_urls : List (String × String)
  tool_calls : Option MessageContentToolCalls
  rag_name : Option String
  role : String
  with_session : Bool
  with_agent : Bool
deriving DecidableEq

/-- The external collaborators consumed by `input.rs` (spec §6), plus the
configuration context snapshot it reads. Roles are identified by name. -/
structure Env where
  isUrl : String → Bool
  homeDir : Option String
  absolutize : String → Option String
  runCmd : String → Bool × String × String
  expandGlob : List String → Except String (List String)
  readFile : String → Except String String
  base64Encode : String → String
  sha256 : String → String
  loadFile : String → Except String String
  fetch : String → Except String (String × String)
  lastMessage : Option LastMessage
  defaultRole : String
  sessionActive : Bool
  agentActive : Bool
  rag : Option String
  searchRag : String → Except String String
  sessionPresent : Bool
  sessionBuildMessages : Input → List Message
  roleBuildMessages : Input → List Message
  toolCallsMessage : MessageContentToolCalls → Message
  patchSystemMessage : List Message → List Message
  temperature : Option Int
  topP : Option Int
  selectFunctions : String → List String
  mergeToolCalls : MessageContentToolCalls → List String → String → MessageContentToolCalls
  newToolCalls : List String → String → MessageContentToolCalls

/-- Rust `HashMap::insert` on a string-keyed map modelled as an association
list: replaces the value when the key is present, appends otherwise. -/
def hmInsert (m : List (String × String)) (k v : String) : List (String × String) :=
  if m.any (fun p => p.1 == k) then m.map (fun p => if p.1 == k then (k, v) else p)
  else m ++ [(k, v)]

/-- Rust `HashMap::get` on the association-list model. -/
def hmGet (m : List (String × String)) (k : String) : Option String :=
  (m.find? (fun p => p.1 == k)).map (fun p => p.2)

/-- Rust `str::starts_with`, computed on the character-list view so that the
kernel can evaluate it. -/
def str_starts_with (s pre : String) : Bool :=
  pre.data.isPrefixOf s.data

/-- Rust `str::ends_with`, computed on the character-list view. -/
def str_ends_with (s suf : String) : Bool :=
  suf.data.reverse.isPrefixOf s.data.reverse

/-- Translation of `resolve_local_path`: URL-shaped strings yield `none`
(routing the reference to the remote loader); otherwise a leading `~/` is
expanded against the resolver's home directory. -/
def resolve_local_path (env : Env) (path : String) : Option String :=
  if env.isUrl path then none
  else
    some (match env.homeDir with
      | some home =>
        if str_starts_with path "~/" then home ++ "/" ++ String.mk (path.data.drop 2)
        else path
      | none => path)

/-- The four reference classes of spec §4.1. -/
inductive RefClass where
  | Sentinel : RefClass
  | ShellCommand : String → RefClass
  | LocalPath : String → RefClass
  | RemoteUrl : String → RefClass
deriving DecidableEq

/-- The classification decision embodied in the loop of `Input::from_files`
(lines 69–90) over `resolve_local_path`: URL → remote; `%%` → sentinel;
backtick-wrapped (length > 2) → shell command with backticks stripped;
otherwise local path (after `~/` expansion). -/
def classify (env : Env) (path : String) : RefClass :=
  match resolve_local_path env path with
  | none => RefClass.RemoteUrl path
  | some v =>
    if v = "%%" then RefClass.Sentinel
    else if 2 < v.length ∧ str_starts_with v "`" = true ∧ str_ends_with v "`" = true then
      RefClass.ShellCommand (String.mk ((v.data.drop 1).dropLast))
    else RefClass.LocalPath v

/-- Result of the classification loop of `Input::from_files`: the four
routing lists plus the sentinel flag, in original order. -/
structure ClassifiedPaths where
  raw_paths : List String
  external_cmds : List String
  local_paths : List String
  remote_urls : List String
  with_last_reply : Bool
deriving DecidableEq

/-- Translation of the classification loop of `Input::from_files`
(lines 63–90). For a local path the raw entry is the absolutized form and is
skipped when absolutization fails, while the non-absolutized form is what is
loaded. -/
def classify_paths (env : Env) : List String → ClassifiedPaths
  | [] => ⟨[], [], [], [], false⟩
  | path :: rest =>
    let r := classify_paths env rest
    match resolve_local_path env path with
    | some v =>
      if v = "%%" then
        { r with raw_paths := v :: r.raw_paths, with_last_reply := true }
      else if 2 < v.length ∧ str_starts_with v "`" = true ∧ str_ends_with v "`" = true then
        { r with raw_paths := v :: r.raw_paths,
                 external_cmds := String.mk ((v.data.drop 1).dropLast) :: r.external_cmds }
      else
        match env.absolutize v with
        | some ap => { r with raw_paths := ap :: r.raw_paths,
                              local_paths := v :: r.local_paths }
        | none => { r with local_paths := v :: r.local_paths }
    | none =>
      { r with raw_paths := path :: r.raw_paths, remote_urls := path :: r.remote_urls }

/-- ASCII lower-casing of one character (model of Rust's case-insensitive
extension comparison). -/
def char_to_lower (c : Char) : Char :=
  if 'A' ≤ c ∧ c ≤ 'Z' then Char.ofNat (c.toNat + 32) else c

/-- Modelled from the spec: extraction of a path's extension, lower-cased
(the helper `get_patch_extension` lives outside this module; spec §4.2 says
per-file classification is "by extension, case-insensitive"). The extension
is what follows the last dot of the file name, absent when the name has no
dot or only a leading one. -/
def get_patch_extension (path : String) : Option String :=
  let name := (path.data.reverse.takeWhile (fun c => c ≠ '/')).reverse
  let ext := (name.reverse.takeWhile (fun c => c ≠ '.')).reverse
  if ext.length = name.length then none
  else if name.take (name.length - ext.length - 1) = [] then none
  else some (String.mk (ext.map char_to_lower))

/-- Translation of `is_image`: the extension, when present, is tested against
the fixed image-extension set. -/
def is_image (path : String) : Bool :=
  ((get_patch_extension path).map (fun v => IMAGE_EXTS.contains v)).getD false

/-- Translation of `read_media_to_data_url`: the extension fixes the MIME
type (unknown extension is the "Unexpected media type" error), the file is
read and base64-encoded into a `data:` payload. -/
def read_media_to_data_url (env : Env) (image_path : String) : Except String String :=
  let extension := (get_patch_extension image_path).getD ""
  let mime_type : Option String :=
    match extension with
    | "png" => some "image/png"
    | "jpg" => some "image/jpeg"
    | "jpeg" => some "image/jpeg"
    | "webp" => some "image/webp"
    | "gif" => some "image/gif"
    | _ => none
  match mime_type with
  | none => Except.error "Unexpected media type"
  | some mime =>
    match env.readFile image_path with
    | Except.error e => Except.error e
    | Except.ok buffer =>
      Except.ok ("data:" ++ mime ++ ";base64," ++ env.base64Encode buffer)

/-- Translation of the shell-command loop at the head of `load_documents`
(lines 416–424): commands run in order; the first failure aborts with an
error carrying the command text and stderr, or stdout when stderr is
empty. -/
def run_cmds (env : Env) : List String → Except String (List (String × String × String))
  | [] => Except.ok []
  | cmd :: rest =>
    if (env.runCmd cmd).1 then
      match run_cmds env rest with
      | Except.error e => Except.error e
      | Except.ok fs => Except.ok (("CMD", cmd, (env.runCmd cmd).2.1) :: fs)
    else
      Except.error ("Failed to run `" ++ cmd ++ "`\n" ++
        (if (env.runCmd cmd).2.2 ≠ "" then (env.runCmd cmd).2.2 else (env.runCmd cmd).2.1))

/-- Translation of the local-file loop of `load_documents` (lines 428–440):
images become data payloads (appended to `medias`, hashed into the dedup
table as they are processed), other files go through the document loader; the
dedup table is threaded in processing order. -/
def load_locals (env : Env) :
    List String → List (String × String) →
    Except String (List (String × String × String) × List String × List (String × String))
  | [], tbl => Except.ok ([], [], tbl)
  | p :: rest, tbl =>
    if is_image p then
      match read_media_to_data_url env p with
      | Except.error e => Except.error ("Unable to read media file '" ++ p ++ "': " ++ e)
      | Except.ok contents =>
        match load_locals env rest (hmInsert tbl (env.sha256 contents) p) with
        | Except.error e => Except.error e
        | Except.ok (fs, ms, t) => Except.ok (fs, contents :: ms, t)
    else
      match env.loadFile p with
      | Except.error e => Except.error ("Unable to read file '" ++ p ++ "': " ++ e)
      | Except.ok contents =>
        match load_locals env rest tbl with
        | Except.error e => Except.error e
        | Except.ok (fs, ms, t) => Except.ok (("FILE", p, contents) :: fs, ms, t)

/-- Translation of the remote-url loop of `load_documents` (lines 442–452):
fetched media is appended to `medias` and hashed into the dedup table, other
content becomes a `URL` text block. -/
def load_urls (env : Env) :
    List String → List (String × String) →
    Except String (List (String × String × String) × List String × List (String × String))
  | [], tbl => Except.ok ([], [], tbl)
  | u :: rest, tbl =>
    match env.fetch u with
    | Except.error e => Except.error ("Failed to load url '" ++ u ++ "': " ++ e)
    | Except.ok (contents, extension) =>
      if extension = MEDIA_URL_EXTENSION then
        match load_urls env rest (hmInsert tbl (env.sha256 contents) u) with
        | Except.error e => Except.error e
        | Except.ok (fs, ms, t) => Except.ok (fs, contents :: ms, t)
      else
        match load_urls env rest tbl with
        | Except.error e => Except.error e
        | Except.ok (fs, ms, t) => Except.ok (("URL", u, contents) :: fs, ms, t)

/-- Translation of `load_documents` (lines 403–454): shell commands first,
then glob-expanded local paths, then remote urls; `files`, `medias` and the
dedup table accumulate in that processing order. -/
def load_documents (env : Env) (external_cmds local_paths remote_urls : List String) :
    Except String (List (String × String × String) × List String × List (String × String)) :=
  match run_cmds env external_cmds with
  | Except.error e => Except.error e
  | Except.ok cmdFiles =>
    match env.expandGlob local_paths with
    | Except.error e => Except.error e
    | Except.ok local_files =>
      match load_locals env local_files [] with
      | Except.error e => Except.error e
      | Except.ok (lf, lm, tbl) =>
        match load_urls env remote_urls tbl with
        | Except.error e => Except.error e
        | Except.ok (uf, um, tbl) =>
          Except.ok (cmdFiles ++ lf ++ uf, lm ++ um, tbl)

/-- Translation of `resolve_role` (lines 392–401): an explicit role opts out
of session/agent context; otherwise the ambient default role and the ambient
session/agent flags are captured. -/
def resolve_role (env : Env) (role : Option String) : String × Bool × Bool :=
  match role with
  | some v => (v, false, false)
  | none => (env.defaultRole, env.sessionActive, env.agentActive)

/-- The last-reply resolution inside `Input::from_files` (lines 100–109):
prefer the last message's non-empty output, else its input's `last_reply`. -/
def resolve_last_reply (env : Env) : Option String :=
  match env.lastMessage with
  | some lm => if lm.output ≠ "" then some lm.output else lm.input_last_reply
  | none => none

/-- Translation of `Input::from_str`. -/
def from_str (env : Env) (text : String) (role : Option String) : Input :=
  let r := resolve_role env role
  { text := text, raw := (text, []), patched_text := none, last_reply := none,
    continue_output := none, regenerate := false, medias := [], data_urls := [],
    tool_calls := none, rag_name := none,
    role := r.1, with_session := r.2.1, with_agent := r.2.2 }

/-- Translation of `Input::from_files` (lines 57–136): classify the
references, load them, assemble the text body from free text, optional last
reply, and one banner block per file, and fail with "No last reply found"
when the sentinel was requested but nothing was resolvable or loaded. The
`anyhow` context wrapping is modelled as a string prefix. -/
def from_files (env : Env) (raw_text : String) (paths : List String) (role : Option String) :
    Except String Input :=
  let cp := classify_paths env paths
  match load_documents env cp.external_cmds cp.local_paths cp.remote_urls with
  | Except.error e => Except.error ("Failed to load files: " ++ e)
  | Except.ok (files, medias, data_urls) =>
    let texts : List String := if raw_text = "" then [] else [raw_text]
    let last_reply := if cp.with_last_reply then resolve_last_reply env else none
    let texts := match last_reply with
      | some v => texts ++ ["\n" ++ v ++ "\n"]
      | none => texts
    if cp.with_last_reply ∧ last_reply = none ∧ files = [] ∧ medias = [] then
      Except.error "No last reply found"
    else
      let texts := texts ++ files.map
        (fun f => "\n============ " ++ f.1 ++ ": " ++ f.2.1 ++ " ============\n" ++ f.2.2)
      let r := resolve_role env role
      Except.ok
        { text := String.intercalate "\n" texts, raw := (raw_text, cp.raw_paths),
          patched_text := none, last_reply := last_reply, continue_output := none,
          regenerate := false, medias := medias, data_urls := data_urls,
          tool_calls := none, rag_name := none,
          role := r.1, with_session := r.2.1, with_agent := r.2.2 }

/-- Translation of `Input::text` (the getter): the patched override
supersedes the underlying text. Named with a prime because the struct field
keeps the source name `text`. -/
def Input.text' (inp : Input) : String :=
  match inp.patched_text with
  | some text => text
  | none => inp.text

/-- Translation of `Input::clear_patch`. -/
def Input.clear_patch (inp : Input) : Input :=
  { inp with patched_text := none }

/-- Translation of `Input::set_text`. -/
def Input.set_text (inp : Input) (text : String) : Input :=
  { inp with text := text }

/-- Translation of `Input::set_continue_output`. -/
def Input.set_continue_output (inp : Input) (output : String) : Input :=
  let output := match inp.continue_output with
    | some v => v ++ output
    | none => output
  { inp with continue_output := some output }

/-- Translation of `Input::set_regenerate`: the ambient default role is
adopted only when its name matches the current role's name, and the
regenerate flag is set in either case. -/
def Input.set_regenerate (env : Env) (inp : Input) : Input :=
  if env.defaultRole = inp.role then
    { inp with role := env.defaultRole, regenerate := true }
  else { inp with regenerate := true }

/-- Translation of `Input::use_embeddings`: when the text is non-empty and a
retrieval source is configured, the search result is installed as
`patched_text` and the source's name as `rag_name`; a search failure mutates
nothing. -/
def Input.use_embeddings (env : Env) (inp : Input) : Except String Input :=
  if inp.text = "" then Except.ok inp
  else
    match env.rag with
    | none => Except.ok inp
    | some ragName =>
      match env.searchRag inp.text with
      | Except.error e => Except.error e
      | Except.ok result =>
        Except.ok { inp with patched_text := some result, rag_name := some ragName }

/-- Translation of `Input::merge_tool_results`: merge into the existing
aggregate or create a fresh one (both through the external aggregate's
contract). -/
def Input.merge_tool_results (env : Env) (inp : Input) (output : String)
    (tool_results : List String) : Input :=
  match inp.tool_calls with
  | some exist => { inp with tool_calls := some (env.mergeToolCalls exist tool_results output) }
  | none => { inp with tool_calls := some (env.newToolCalls tool_results output) }

/-- Rust `char::is_control` (the `Cc` category). -/
def rust_is_control (c : Char) : Bool :=
  c.val < 32 || (127 ≤ c.val && c.val ≤ 159)

/-- Rust `char::is_whitespace` (the Unicode `White_Space` property). -/
def rust_is_whitespace (c : Char) : Bool :=
  c.val = 0x9 || c.val = 0xA || c.val = 0xB || c.val = 0xC || c.val = 0xD || c.val = 0x20 ||
  c.val = 0x85 || c.val = 0xA0 || c.val = 0x1680 ||
  (0x2000 ≤ c.val && c.val ≤ 0x200A) ||
  c.val = 0x2028 || c.val = 0x2029 || c.val = 0x202F || c.val = 0x205F || c.val = 0x3000

/-- Modelled from the spec: the double-width (CJK/fullwidth) character ranges
of the external unicode-width crate ("wide/CJK characters count double"). -/
def is_wide_cjk (c : Char) : Bool :=
  (0x1100 ≤ c.val && c.val ≤ 0x115F) ||
  (0x2E80 ≤ c.val && c.val ≤ 0x303E) ||
  (0x3041 ≤ c.val && c.val ≤ 0x33FF) ||
  (0x3400 ≤ c.val && c.val ≤ 0x4DBF) ||
  (0x4E00 ≤ c.val && c.val ≤ 0x9FFF) ||
  (0xAC00 ≤ c.val && c.val ≤ 0xD7A3) ||
  (0xF900 ≤ c.val && c.val ≤ 0xFAFF) ||
  (0xFE30 ≤ c.val && c.val ≤ 0xFE4F) ||
  (0xFF00 ≤ c.val && c.val ≤ 0xFF60) ||
  (0xFFE0 ≤ c.val && c.val ≤ 0xFFE6)

/-- Modelled from the spec: `char::width_cjk` of the external unicode-width
crate — `none` for control characters, 2 for wide/CJK characters, 1
otherwise. -/
def char_width_cjk (c : Char) : Option Nat :=
  if rust_is_control c then none
  else if is_wide_cjk c then some 2 else some 1

/-- Modelled from the spec: `str::width_cjk` — the sum of character widths,
counting width-less (control) characters as 0. -/
def width_cjk_str (cs : List Char) : Nat :=
  (cs.map (fun c => (char_width_cjk c).getD 0)).sum

/-- Per-character width as used inside the summary truncation loop
(`c.width_cjk().unwrap_or(1)`). -/
def loop_width (c : Char) : Nat :=
  (char_width_cjk c).getD 1

/-- Rust `str::trim` on the character-list view. -/
def trim_chars (cs : List Char) : List Char :=
  ((cs.dropWhile rust_is_whitespace).reverse.dropWhile rust_is_whitespace).reverse

/-- The truncation loop of `Input::summary` (lines 322–331): accumulate
widths; as soon as the running width exceeds `SUMMARY_MAX_WIDTH - 3`, emit
the three-dot ellipsis and stop. -/
def summary_loop (sum_width : Nat) : List Char → List Char
  | [] => []
  | c :: rest =>
    let sw := sum_width + loop_width c
    if SUMMARY_MAX_WIDTH - 3 < sw then ['.', '.', '.']
    else c :: summary_loop sw rest

/-- The sanitization step of `Input::summary`: trim, then replace control
characters by spaces. -/
def summary_sanitize (cs : List Char) : List Char :=
  (trim_chars cs).map (fun c => if rust_is_control c then ' ' else c)

/-- Translation of `Input::summary` (lines 314–336) on the character-list
view of the text. -/
def summary_chars (cs : List Char) : List Char :=
  let text := summary_sanitize cs
  if SUMMARY_MAX_WIDTH < width_cjk_str text then summary_loop 0 text
  else text

/-- Translation of `Input::summary`. -/
def Input.summary (inp : Input) : String :=
  String.mk (summary_chars inp.text.data)

/-- The segment list assembled by `Input::raw` (lines 338–351) before
joining with spaces. -/
def raw_segments (text : String) (files : List String) : List String :=
  let segments := if files = [] then files else ".file" :: files
  if text = "" then segments
  else if segments = [] then [text]
  else segments ++ ["--", text]

/-- Translation of `Input::raw` (the view; the struct field keeps the source
name `raw`). -/
def Input.raw' (inp : Input) : String :=
  String.intercalate " " (raw_segments inp.raw.1 inp.raw.2)

/-- Translation of `Input::build_messages` (lines 267–280): session or role
composition (both external), then the pending tool-call message, if any.
The body never produces an error. -/
def build_messages (env : Env) (inp : Input) : Except String (List Message) :=
  let messages :=
    if inp.with_session && env.sessionPresent then env.sessionBuildMessages inp
    else env.roleBuildMessages inp
  let messages := match inp.tool_calls with
    | some tool_calls => messages ++ [env.toolCallsMessage tool_calls]
    | none => messages
  Except.ok messages

/-- Vision-capability model of the target `Model` (external), with the
token-limit guard as an opaque function. -/
structure Model where
  supports_vision : Bool
  no_system_message : Bool
  guard_max_input_tokens : List Message → Except String Unit

/-- The request-assembly structure handed to the transport layer
(`ChatCompletionsData`); numeric generation parameters are opaque here. -/
structure ChatCompletionsData where
  messages : List Message
  temperature : Option Int
  top_p : Option Int
  functions : List String
  stream : Bool

/-- The exact vision-capability error message of
`Input::prepare_completion_data`. -/
def vision_error_msg : String :=
  "The current model does not support vision. Is the model configured with `supports_vision: true`?"

/-- The tail of `Input::prepare_completion_data` after the vision guard:
build messages, optionally patch the system message, run the token guard,
then assemble the request. -/
def completion_data_rest (env : Env) (inp : Input) (model : Model) (stream : Bool) :
    Except String ChatCompletionsData :=
  match build_messages env inp with
  | Except.error e => Except.error e
  | Except.ok messages =>
    let messages :=
      if model.no_system_message then env.patchSystemMessage messages else messages
    match model.guard_max_input_tokens messages with
    | Except.error e => Except.error e
    | Except.ok _ =>
      Except.ok { messages := messages, temperature := env.temperature,
                  top_p := env.topP, functions := env.selectFunctions inp.role,
                  stream := stream }

/-- Translation of `Input::prepare_completion_data` (lines 242–265): the
vision-capability guard runs first; everything else follows it. -/
def prepare_completion_data (env : Env) (inp : Input) (model : Model) (stream : Bool) :
    Except String ChatCompletionsData :=
  if !inp.medias.isEmpty && !model.supports_vision then Except.error vision_error_msg
  else completion_data_rest env inp model stream

/-- One controlled mutation of an `Input` (the operations the owning turn may
apply after construction, spec §3 lifecycle). -/
inductive Step (env : Env) : Input → Input → Prop where
  | set_text (inp : Input) (t : String) : Step env inp (inp.set_text t)
  | clear_patch (inp : Input) : Step env inp inp.clear_patch
  | set_continue_output (inp : Input) (o : String) : Step env inp (inp.set_continue_output o)
  | set_regenerate (inp : Input) : Step env inp (Input.set_regenerate env inp)
  | use_embeddings (inp inp' : Input) (h : Input.use_embeddings env inp = Except.ok inp') :
      Step env inp inp'
  | merge_tool_results (inp : Input) (o : String) (rs : List String) :
      Step env inp (Input.merge_tool_results env inp o rs)

/-- A concrete environment used by witnesses: every collaborator succeeds and
is fully computable. -/
def testEnv : Env :=
  { isUrl := fun s => str_starts_with s "http://" || str_starts_with s "https://",
    homeDir := none,
    absolutize := fun s => some s,
    runCmd := fun _ => (true, "cmd-output", ""),
    expandGlob := fun l => Except.ok l,
    readFile := fun _ => Except.ok "IMGBYTES",
    base64Encode := fun s => s ++ "==",
    sha256 := fun s => "sha256:" ++ s,
    loadFile := fun _ => Except.ok "file-contents",
    fetch := fun _ => Except.ok ("web-contents", "txt"),
    lastMessage := none,
    defaultRole := "default",
    sessionActive := false,
    agentActive := false,
    rag := some "myrag",
    searchRag := fun q => Except.ok ("patched:" ++ q),
    sessionPresent := false,
    sessionBuildMessages := fun _ => [],
    roleBuildMessages := fun _ => ["role-msg"],
    toolCallsMessage := fun _ => "tool-msg",
    patchSystemMessage := fun ms => ms,
    temperature := none,
    topP := none,
    selectFunctions := fun _ => [],
    mergeToolCalls := fun tc rs o => { tool_results := tc.tool_results ++ rs, output := tc.output ++ o },
    newToolCalls := fun rs o => { tool_results := rs, output := o } }

/-- A variant of the test environment whose shell runner fails. -/
def failCmdEnv : Env :=
  { testEnv with runCmd := fun c => (false, "out:" ++ c, "err:" ++ c) }

/-- C4: classification of a reference string into Sentinel / ShellCommand /
LocalPath / RemoteUrl is total, deterministic and mutually exclusive (it is a
function into a sum type, so exactly one class applies); URL-shaped strings
(those the external URL parser accepts) classify as RemoteUrl unconditionally,
and unrecognized forms default to LocalPath. -/
theorem c4_classification_total (env : Env) (path : String) :
    (∃! c, classify env path = c)
    ∧ (env.isUrl path = true → classify env path = RefClass.RemoteUrl path)
    ∧ (∀ v, resolve_local_path env path = some v → v ≠ "%%" →
        ¬(2 < v.length ∧ str_starts_with v "`" = true ∧ str_ends_with v "`" = true) →
        classify env path = RefClass.LocalPath v) := by
  refine ⟨⟨classify env path, rfl, fun y hy => hy.symm⟩, ?_, ?_⟩
  · intro h
    simp [classify, resolve_local_path, h]
  · intro v hv hne hnb
    simp [classify, hv, hne]
    intro h1 h2
    rcases Bool.eq_false_or_eq_true (str_ends_with v "`") with h3 | h3
    · exact absurd ⟨h1, h2, h3⟩ hnb
    · exact h3

/-- Witness for C4 at concrete references: a URL-shaped string classifies as
remote, a plain name as local path. -/
theorem c4_classification_total_witness :
    classify testEnv "http://u" = RefClass.RemoteUrl "http://u"
    ∧ classify testEnv "doc.txt" = RefClass.LocalPath "doc.txt" :=
  ⟨(c4_classification_total testEnv "http://u").2.1 (by decide),
   (c4_classification_total testEnv "doc.txt").2.2 "doc.txt" (by decide) (by decide) (by decide)⟩

/-- C7: `raw()` reconstructs the literal invocation: free text "summarize"
with references ["doc.txt"] yields exactly ".file doc.txt -- summarize"; with
references and empty free text no "--" separator is appended (the segments
are exactly the ".file" marker and the references); with no references the
output is the free text unchanged. -/
theorem c7_raw_reconstruction (inp : Input) :
    (inp.raw = ("summarize", ["doc.txt"]) → inp.raw' = ".file doc.txt -- summarize")
    ∧ (inp.raw.1 = "" →
        raw_segments inp.raw.1 inp.raw.2 =
          if inp.raw.2.isEmpty then [] else ".file" :: inp.raw.2)
    ∧ (inp.raw.2 = [] → inp.raw' = inp.raw.1) := by
  refine ⟨?_, ?_, ?_⟩
  · intro h
    simp [Input.raw', h, raw_segments, String.intercalate]
    rfl
  · intro h
    by_cases h2 : inp.raw.2 = [] <;> simp [raw_segments, h, h2]
  · intro h
    by_cases ht : inp.raw.1 = ""
    · simp [Input.raw', raw_segments, h, ht, String.intercalate]
    · simp [Input.raw', raw_segments, h, ht, String.intercalate]
      rfl

/-- Witness for C7 at a concrete `Input` carrying the scenario's raw pair. -/
theorem c7_raw_reconstruction_witness :
    ({ from_str testEnv "summarize" none with
        raw := ("summarize", ["doc.txt"]) } : Input).raw' = ".file doc.txt -- summarize" :=
  (c7_raw_reconstruction { from_str testEnv "summarize" none with
      raw := ("summarize", ["doc.txt"]) }).1 rfl

/-- C10: `set_text` replaces only the underlying `text` field; every other
field is unchanged, and when a patched override is present `text()` still
returns it afterwards. -/
theorem c10_set_text_frame (inp : Input) (t : String) :
    (∀ p, inp.patched_text = some p → (inp.set_text t).text' = p)
    ∧ (inp.set_text t).text = t
    ∧ (inp.set_text t).patched_text = inp.patched_text
    ∧ (inp.set_text t).raw = inp.raw
    ∧ (inp.set_text t).last_reply = inp.last_reply
    ∧ (inp.set_text t).continue_output = inp.continue_output
    ∧ (inp.set_text t).regenerate = inp.regenerate
    ∧ (inp.set_text t).medias = inp.medias
    ∧ (inp.set_text t).data_urls = inp.data_urls
    ∧ (inp.set_text t).tool_calls = inp.tool_calls
    ∧ (inp.set_text t).rag_name = inp.rag_name
    ∧ (inp.set_text t).role = inp.role
    ∧ (inp.set_text t).with_session = inp.with_session
    ∧ (inp.set_text t).with_agent = inp.with_agent := by
  refine ⟨?_, rfl, rfl, rfl, rfl, rfl, rfl, rfl, rfl, rfl, rfl, rfl, rfl, rfl⟩
  intro p hp
  simp [Input.set_text, Input.text', hp]

/-- Witness for C10: with a patched override installed, `text()` still
returns the override after `set_text`. -/
theorem c10_set_text_frame_witness :
    (Input.set_text { from_str testEnv "orig" none with
        patched_text := some "patched" } "new").text' = "patched" :=
  (c10_set_text_frame { from_str testEnv "orig" none with
      patched_text := some "patched" } "new").1 "patched" rfl

/-- C9: with media present and a model lacking vision capability,
`prepare_completion_data` fails with the capability-mismatch error before the
message-building / token-guard tail runs (the result is the error for every
environment and every guard function); with no media or a vision-capable
model, the vision check never fails and the result is exactly the tail
computation. -/
theorem c9_vision_guard (env : Env) (inp : Input) (model : Model) (stream : Bool) :
    (inp.medias ≠ [] → model.supports_vision = false →
      prepare_completion_data env inp model stream = Except.error vision_error_msg)
    ∧ (inp.medias = [] ∨ model.supports_vision = true →
      prepare_completion_data env inp model stream = completion_data_rest env inp model stream) := by
  constructor
  · intro h1 h2
    cases hm : inp.medias with
    | nil => exact absurd hm h1
    | cons a l => simp [prepare_completion_data, hm, h2]
  · intro h
    rcases h with h | h
    · simp [prepare_completion_data, h]
    · simp [prepare_completion_data, h]

/-- A vision-incapable model with a trivially succeeding token guard. -/
def noVisionModel : Model :=
  { supports_vision := false, no_system_message := false,
    guard_max_input_tokens := fun _ => Except.ok () }

/-- Witness for C9: one media entry and a vision-incapable model make
request preparation fail with the capability-mismatch error. -/
theorem c9_vision_guard_witness :
    prepare_completion_data testEnv
      { from_str testEnv "t" none with medias := ["data:image/png;base64,xyz"] }
      noVisionModel true = Except.error vision_error_msg :=
  (c9_vision_guard testEnv
    { from_str testEnv "t" none with medias := ["data:image/png;base64,xyz"] }
    noVisionModel true).1 (by decide) rfl

/-- C5: with the references successfully loaded, `from_files` fails with the
"No last reply found" error exactly when the sentinel was requested, no last
reply is resolvable from context, and no file blocks and no media were
loaded. -/
theorem c5_empty_sentinel (env : Env) (raw_text : String) (paths : List String)
    (role : Option String) (files : List (String × String × String))
    (medias : List String) (tbl : List (String × String))
    (hload : load_documents env (classify_paths env paths).external_cmds
        (classify_paths env paths).local_paths (classify_paths env paths).remote_urls =
        Except.ok (files, medias, tbl)) :
    from_files env raw_text paths role = Except.error "No last reply found" ↔
      ((classify_paths env paths).with_last_reply = true ∧ resolve_last_reply env = none ∧
        files = [] ∧ medias = []) := by
  by_cases hw : (classify_paths env paths).with_last_reply = true
  · by_cases h2 : resolve_last_reply env = none
    · by_cases h3 : files = []
      · by_cases h4 : medias = []
        · simp [from_files, hload, hw, h2, h3, h4]
        · simp [from_files, hload, hw, h2, h3, h4]
      · simp [from_files, hload, hw, h2, h3]
    · simp [from_files, hload, hw, h2]
  · have hwf : (classify_paths env paths).with_last_reply = false := by
      cases hb : (classify_paths env paths).with_last_reply
      · rfl
      · exact absurd hb hw
    simp [from_files, hload, hwf]

/-- Witness for C5: the sentinel `%%` with no last message in context and no
other references makes construction fail with the "No last reply found"
error. -/
theorem c5_empty_sentinel_witness :
    from_files testEnv "" ["%%"] none = Except.error "No last reply found" :=
  (c5_empty_sentinel testEnv "" ["%%"] none [] [] [] rfl).mpr ⟨rfl, rfl, rfl, rfl⟩

/-- The shell loop aborts at the first failing command with an error carrying
the command text and the captured stderr, or stdout when stderr is empty. -/
theorem run_cmds_fail (env : Env) (pre : List String) (c : String) (post : List String)
    (hpre : ∀ c' ∈ pre, (env.runCmd c').1 = true)
    (hc : (env.runCmd c).1 = false) :
    run_cmds env (pre ++ c :: post) =
      Except.error ("Failed to run `" ++ c ++ "`\n" ++
        (if (env.runCmd c).2.2 ≠ "" then (env.runCmd c).2.2 else (env.runCmd c).2.1)) := by
  induction pre with
  | nil => simp [run_cmds, hc]
  | cons p rest ih =>
    have hp := hpre p (List.mem_cons_self p rest)
    have ih' := ih (fun c' hc' => hpre c' (List.mem_cons_of_mem p hc'))
    simp [run_cmds, hp, ih']

/-- C8: when a shell-command reference's execution fails, the whole load
aborts with an error built from the command text and the captured stderr (or
stdout when stderr is empty): `load_documents` returns that error and
`from_files` returns it wrapped in its load context, so no files list, media
list, or `Input` is produced. -/
theorem c8_command_failure (env : Env) (pre : List String) (c : String)
    (post locals urls : List String) (raw_text : String) (role : Option String)
    (hpre : ∀ c' ∈ pre, (env.runCmd c').1 = true)
    (hc : (env.runCmd c).1 = false) :
    load_documents env (pre ++ c :: post) locals urls =
      Except.error ("Failed to run `" ++ c ++ "`\n" ++
        (if (env.runCmd c).2.2 ≠ "" then (env.runCmd c).2.2 else (env.runCmd c).2.1))
    ∧ (∀ paths, (classify_paths env paths).external_cmds = pre ++ c :: post →
        (classify_paths env paths).local_paths = locals →
        (classify_paths env paths).remote_urls = urls →
        from_files env raw_text paths role =
          Except.error ("Failed to load files: " ++
            ("Failed to run `" ++ c ++ "`\n" ++
              (if (env.runCmd c).2.2 ≠ "" then (env.runCmd c).2.2 else (env.runCmd c).2.1)))) := by
  have hrun := run_cmds_fail env pre c post hpre hc
  have hl : load_documents env (pre ++ c :: post) locals urls =
      Except.error ("Failed to run `" ++ c ++ "`\n" ++
        (if (env.runCmd c).2.2 ≠ "" then (env.runCmd c).2.2 else (env.runCmd c).2.1)) := by
    simp [load_documents, hrun]
  refine ⟨hl, ?_⟩
  intro paths e1 e2 e3
  simp only [from_files, e1, e2, e3, hl]

/-- Witness for C8 at a concrete failing command. -/
theorem c8_command_failure_witness :
    load_documents failCmdEnv ["boom"] [] [] =
      Except.error "Failed to run `boom`\nerr:boom" := by
  exact (c8_command_failure failCmdEnv [] "boom" [] [] [] "" none
      (fun c' hc' => absurd hc' (List.not_mem_nil c')) rfl).1

/-- Sanitized summary text contains no control characters (they were replaced
by spaces). -/
theorem no_control_sanitize (cs : List Char) :
    ∀ c ∈ summary_sanitize cs, rust_is_control c = false := by
  intro c hc
  obtain ⟨a, _, rfl⟩ := List.mem_map.mp hc
  by_cases h : rust_is_control a = true
  · rw [if_pos h]
    decide
  · rw [if_neg h]
    simpa using h

/-- On a non-control character the two `unwrap_or` readings of the width
agree. -/
theorem getD_width_eq (c : Char) (hc : rust_is_control c = false) :
    (char_width_cjk c).getD 0 = loop_width c := by
  unfold loop_width char_width_cjk
  rw [hc]
  by_cases hw : is_wide_cjk c = true
  · simp [hw]
  · simp [hw]

/-- Every character contributes at least width 1 inside the truncation
loop. -/
theorem one_le_loop_width (c : Char) : 1 ≤ loop_width c := by
  unfold loop_width char_width_cjk
  split
  · simp
  · split <;> simp

/-- On control-free text the two width readings (`unwrap_or(0)` of
`str::width_cjk` and `unwrap_or(1)` of the loop) agree. -/
theorem width_cjk_str_eq_loop (cs : List Char)
    (h : ∀ c ∈ cs, rust_is_control c = false) :
    width_cjk_str cs = (cs.map loop_width).sum := by
  induction cs with
  | nil => rfl
  | cons c rest ih =>
    have hc := h c (List.mem_cons_self c rest)
    have hrest := ih (fun x hx => h x (List.mem_cons_of_mem c hx))
    simp only [width_cjk_str, List.map_cons, List.sum_cons] at *
    rw [hrest, getD_width_eq c hc]

/-- The truncation loop never pushes the running width beyond the budget:
starting at width at most 77 over control-free text, the loop's output plus
the start width stays at or below 80. -/
theorem summary_loop_width_le (cs : List Char)
    (h : ∀ c ∈ cs, rust_is_control c = false) :
    ∀ sumw, sumw ≤ 77 → sumw + width_cjk_str (summary_loop sumw cs) ≤ 80 := by
  induction cs with
  | nil =>
    intro sumw hs
    simp only [summary_loop, width_cjk_str, List.map_nil, List.sum_nil]
    omega
  | cons c rest ih =>
    intro sumw hs
    have hc := h c (List.mem_cons_self c rest)
    have hrest := fun x hx => h x (List.mem_cons_of_mem c hx)
    simp only [summary_loop]
    have h77 : SUMMARY_MAX_WIDTH - 3 = 77 := by decide
    rw [h77]
    by_cases hif : 77 < sumw + loop_width c
    · rw [if_pos hif]
      have : width_cjk_str ['.', '.', '.'] = 3 := by decide
      omega
    · rw [if_neg hif]
      have hw : width_cjk_str (c :: summary_loop (sumw + loop_width c) rest) =
          (char_width_cjk c).getD 0 + width_cjk_str (summary_loop (sumw + loop_width c) rest) := by
        simp [width_cjk_str]
      have := ih hrest (sumw + loop_width c) (by omega)
      rw [hw, getD_width_eq c hc]
      omega

/-- When the remaining width overshoots the 77-wide budget, the loop emits a
proper front of the text followed by the three-dot ellipsis. -/
theorem summary_loop_ellipsis (cs : List Char) :
    ∀ sumw, sumw ≤ 77 → 77 < sumw + (cs.map loop_width).sum →
    ∃ n, summary_loop sumw cs = cs.take n ++ ['.', '.', '.'] := by
  induction cs with
  | nil =>
    intro sumw hs hgt
    simp at hgt
    omega
  | cons c rest ih =>
    intro sumw hs hgt
    simp only [summary_loop]
    have h77 : SUMMARY_MAX_WIDTH - 3 = 77 := by decide
    rw [h77]
    by_cases hif : 77 < sumw + loop_width c
    · rw [if_pos hif]
      exact ⟨0, rfl⟩
    · rw [if_neg hif]
      simp only [List.map_cons, List.sum_cons] at hgt
      obtain ⟨n, hn⟩ := ih (sumw + loop_width c) (by omega) (by omega)
      exact ⟨n + 1, by rw [hn]; rfl⟩

/-- C6: summary output never exceeds the CJK-aware width budget of 80;
no truncation happens when the sanitized (trimmed, control-replaced) text
already fits, and when it exceeds the budget the output is a front of the
sanitized text followed by the three-dot ellipsis; for a text of 100 plain
ASCII characters the output is exactly the first 77 characters plus the
ellipsis. -/
theorem c6_summary_budget (inp : Input) :
    width_cjk_str (Input.summary inp).data ≤ SUMMARY_MAX_WIDTH
    ∧ (width_cjk_str (summary_sanitize inp.text.data) ≤ SUMMARY_MAX_WIDTH →
        Input.summary inp = String.mk (summary_sanitize inp.text.data))
    ∧ (SUMMARY_MAX_WIDTH < width_cjk_str (summary_sanitize inp.text.data) →
        ∃ n, Input.summary inp =
          String.mk ((summary_sanitize inp.text.data).take n ++ ['.', '.', '.']))
    ∧ (inp.text = String.mk (List.replicate 100 'a') →
        Input.summary inp = String.mk (List.replicate 77 'a' ++ ['.', '.', '.'])) := by
  have hnc := no_control_sanitize inp.text.data
  refine ⟨?_, ?_, ?_, ?_⟩
  · show width_cjk_str (summary_chars inp.text.data) ≤ SUMMARY_MAX_WIDTH
    unfold summary_chars
    by_cases hif : SUMMARY_MAX_WIDTH < width_cjk_str (summary_sanitize inp.text.data)
    · rw [if_pos hif]
      have := summary_loop_width_le (summary_sanitize inp.text.data) hnc 0 (by omega)
      unfold SUMMARY_MAX_WIDTH
      omega
    · rw [if_neg hif]
      omega
  · intro hle
    unfold Input.summary summary_chars
    rw [if_neg (by omega)]
  · intro hgt
    unfold Input.summary summary_chars
    rw [if_pos hgt]
    have hsum : 77 < 0 + ((summary_sanitize inp.text.data).map loop_width).sum := by
      have := width_cjk_str_eq_loop (summary_sanitize inp.text.data) hnc
      unfold SUMMARY_MAX_WIDTH at hgt
      omega
    obtain ⟨n, hn⟩ := summary_loop_ellipsis (summary_sanitize inp.text.data) 0 (by omega) hsum
    exact ⟨n, by rw [hn]⟩
  · intro h
    unfold Input.summary
    rw [h]
    show String.mk (summary_chars (List.replicate 100 'a')) = _
    have : summary_chars (List.replicate 100 'a') =
        List.replicate 77 'a' ++ ['.', '.', '.'] := by decide
    rw [this]

/-- Witness for C6: the 100-ASCII-character scenario, evaluated. -/
theorem c6_summary_budget_witness :
    Input.summary (from_str testEnv (String.mk (List.replicate 100 'a')) none) =
      String.mk (List.replicate 77 'a' ++ ['.', '.', '.']) :=
  (c6_summary_budget (from_str testEnv (String.mk (List.replicate 100 'a')) none)).2.2.2 rfl

/-- C3 (amended): the forward direction of the claimed invariant — if
`patched_text` is set then `rag_name` is set — is preserved by every sequence
of controlled mutations from any state satisfying it (all constructors
produce such states, since both fields start as `none`). The claimed
converse direction is refuted by `c3_patch_rag_counterexample`. -/
theorem c3_patch_implies_rag_invariant (env : Env) (inp inp' : Input)
    (hsteps : Relation.ReflTransGen (Step env) inp inp')
    (hinv : inp.patched_text.isSome = true → inp.rag_name.isSome = true) :
    inp'.patched_text.isSome = true → inp'.rag_name.isSome = true := by
  induction hsteps with
  | refl => exact hinv
  | @tail b c hrt hstep ih =>
    cases hstep with
    | set_text t => exact ih
    | clear_patch =>
      intro hcontra
      simp [Input.clear_patch] at hcontra
    | set_continue_output o => exact ih
    | set_regenerate =>
      unfold Input.set_regenerate
      by_cases hr : env.defaultRole = b.role
      · rw [if_pos hr]
        exact ih
      · rw [if_neg hr]
        exact ih
    | use_embeddings x h =>
      unfold Input.use_embeddings at h
      by_cases ht : b.text = ""
      · rw [if_pos ht] at h
        injection h with hbc
        subst hbc
        exact ih
      · rw [if_neg ht] at h
        cases hrag : env.rag with
        | none =>
          rw [hrag] at h
          injection h with hbc
          subst hbc
          exact ih
        | some ragName =>
          rw [hrag] at h
          cases hs : env.searchRag b.text with
          | error e =>
            rw [hs] at h
            exact absurd h (by simp)
          | ok result =>
            rw [hs] at h
            injection h with hbc
            subst hbc
            intro _
            rfl
    | merge_tool_results o rs =>
      unfold Input.merge_tool_results
      cases hb : b.tool_calls <;> exact ih

/-- Start state for the C3 development: a fresh `Input`. -/
def c3_state0 : Input := from_str testEnv "hello" none

/-- After `use_embeddings` both `patched_text` and `rag_name` are set. -/
def c3_state1 : Input := (Input.use_embeddings testEnv c3_state0).toOption.getD c3_state0

/-- After `clear_patch`, `patched_text` is cleared but `rag_name` is not. -/
def c3_state2 : Input := c3_state1.clear_patch

/-- Witness for C3's amended invariant at a concrete mutation sequence: the
state reached by `use_embeddings` has `patched_text` set, and the preserved
forward direction forces `rag_name` to be set there. -/
theorem c3_patch_implies_rag_invariant_witness :
    c3_state1.rag_name.isSome = true :=
  c3_patch_implies_rag_invariant testEnv c3_state0 c3_state1
    (Relation.ReflTransGen.single (Step.use_embeddings c3_state0 c3_state1 rfl))
    (by decide) (by decide)

/-- C3 counterexample: the sequence `use_embeddings` then `clear_patch`
reaches a state with `patched_text = none` but `rag_name` still set, so the
claimed two-way invariant (`patched_text` is `Some` iff `rag_name` is
`Some`) fails: `clear_patch` clears only `patched_text`. -/
theorem c3_patch_rag_counterexample :
    Relation.ReflTransGen (Step testEnv) c3_state0 c3_state2
    ∧ c3_state2.patched_text.isSome = false
    ∧ c3_state2.rag_name.isSome = true := by
  refine ⟨?_, by decide, by decide⟩
  have h1 : Step testEnv c3_state0 c3_state1 :=
    Step.use_embeddings c3_state0 c3_state1 rfl
  exact Relation.ReflTransGen.tail (Relation.ReflTransGen.single h1)
    (Step.clear_patch c3_state1)

/-- C1 (amended): loading two image references whose data payload strings are
byte-identical appends both payloads to `medias` as separate, string-equal
entries, and leaves exactly one dedup-table entry for the content hash — but
that entry maps to the reference processed LAST (`HashMap::insert`
overwrites), not the first. The claimed first-write-wins policy is refuted by
`c1_dedup_first_write_counterexample`. -/
theorem c1_dedup_last_write (env : Env) (p1 p2 d : String)
    (h1 : is_image p1 = true) (h2 : is_image p2 = true)
    (hg : env.expandGlob [p1, p2] = Except.ok [p1, p2])
    (hr1 : read_media_to_data_url env p1 = Except.ok d)
    (hr2 : read_media_to_data_url env p2 = Except.ok d) :
    load_documents env [] [p1, p2] [] =
      Except.ok ([], [d, d], [(env.sha256 d, p2)]) := by
  simp [load_documents, run_cmds, hg, load_locals, h1, h2, hr1, hr2, load_urls, hmInsert]

/-- Witness for C1's amended behavior at two concrete identical images. -/
theorem c1_dedup_last_write_witness :
    load_documents testEnv [] ["a.png", "b.png"] [] =
      Except.ok ([],
        ["data:image/png;base64,IMGBYTES==", "data:image/png;base64,IMGBYTES=="],
        [("sha256:data:image/png;base64,IMGBYTES==", "b.png")]) :=
  c1_dedup_last_write testEnv "a.png" "b.png" "data:image/png;base64,IMGBYTES=="
    rfl rfl rfl rfl rfl

/-- C1 counterexample: with two references `a.png` then `b.png` producing the
same payload, the dedup table's single entry resolves to `b.png` — the
reference inserted last — refuting the claim that it maps to the reference
inserted first (`a.png`). -/
theorem c1_dedup_first_write_counterexample :
    hmGet ((load_documents testEnv [] ["a.png", "b.png"] []).toOption.getD ([], [], [])).2.2
        (testEnv.sha256 "data:image/png;base64,IMGBYTES==") = some "b.png"
    ∧ hmGet ((load_documents testEnv [] ["a.png", "b.png"] []).toOption.getD ([], [], [])).2.2
        (testEnv.sha256 "data:image/png;base64,IMGBYTES==") ≠ some "a.png" := by
  refine ⟨rfl, by decide⟩

/-- A successful shell pass yields exactly the commands' `CMD` blocks, in
supply order. -/
theorem run_cmds_ok_map (env : Env) (cmds : List String)
    (cf : List (String × String × String)) (h : run_cmds env cmds = Except.ok cf) :
    cf = cmds.map (fun c => ("CMD", c, (env.runCmd c).2.1)) := by
  induction cmds generalizing cf with
  | nil =>
    simp only [run_cmds] at h
    injection h with h'
    simp [h'.symm]
  | cons c rest ih =>
    simp only [run_cmds] at h
    by_cases hc : (env.runCmd c).1 = true
    · rw [if_pos hc] at h
      cases hrec : run_cmds env rest with
      | error e =>
        rw [hrec] at h
        exact absurd h (by simp)
      | ok fs =>
        rw [hrec] at h
        injection h with h'
        rw [List.map_cons, ← h', ih fs hrec]
    · rw [if_neg hc] at h
      exact absurd h (by simp)

/-- C2 (amended): loading is sequential and groups results by reference
class — the final files list is the shell-command blocks (in supply order,
as `run_cmds_ok_map` shows), then the local-path blocks, then the remote-url
blocks, and the medias list is the local media followed by the remote media.
Order is preserved within each class only; the claimed preservation of the
original mixed supply order is refuted by `c2_order_counterexample`. -/
theorem c2_grouped_order (env : Env) (cmds locals urls : List String)
    (cf lf uf : List (String × String × String)) (lfs : List String)
    (lm um : List String) (t1 t2 : List (String × String))
    (h1 : run_cmds env cmds = Except.ok cf)
    (h2 : env.expandGlob locals = Except.ok lfs)
    (h3 : load_locals env lfs [] = Except.ok (lf, lm, t1))
    (h4 : load_urls env urls t1 = Except.ok (uf, um, t2)) :
    load_documents env cmds locals urls = Except.ok (cf ++ lf ++ uf, lm ++ um, t2)
    ∧ cf = cmds.map (fun c => ("CMD", c, (env.runCmd c).2.1)) := by
  refine ⟨?_, run_cmds_ok_map env cmds cf h1⟩
  simp [load_documents, h1, h2, h3, h4]

/-- Witness for C2's amended decomposition at one command and one url. -/
theorem c2_grouped_order_witness :
    load_documents testEnv ["c"] [] ["http://u"] =
      Except.ok ([("CMD", "c", "cmd-output"), ("URL", "http://u", "web-contents")], [], []) :=
  (c2_grouped_order testEnv ["c"] [] ["http://u"]
    [("CMD", "c", "cmd-output")] [] [("URL", "http://u", "web-contents")] []
    [] [] [] [] rfl rfl rfl rfl).1

/-- C2 counterexample: supplying the reference list
`["http://u", "`c`"]` — a remote url first, a shell command second — yields a
files list whose first block is the `CMD` block and whose second is the `URL`
block, so the files list does not preserve the original reference order. -/
theorem c2_order_counterexample :
    (classify_paths testEnv ["http://u", "`c`"]).external_cmds = ["c"]
    ∧ (classify_paths testEnv ["http://u", "`c`"]).remote_urls = ["http://u"]
    ∧ load_documents testEnv (classify_paths testEnv ["http://u", "`c`"]).external_cmds
        (classify_paths testEnv ["http://u", "`c`"]).local_paths
        (classify_paths testEnv ["http://u", "`c`"]).remote_urls =
      Except.ok ([("CMD", "c", "cmd-output"), ("URL", "http://u", "web-contents")], [], [])
    ∧ [("CMD", "c", "cmd-output"), ("URL", "http://u", "web-contents")] ≠
        [("URL", "http://u", "web-contents"), ("CMD", "c", "cmd-output")] :=
  ⟨rfl, rfl, rfl, by decide⟩

end AichatInput
